import Mathlib

/-!
Shallow embedding of `src/bot.py` (FreshMart grocery delivery bot).

Python dictionaries are modelled as insertion-ordered association lists:
an assignment `d[k] = v` replaces the first binding of `k` in place when it
exists and appends a new binding at the end otherwise, exactly as a Python
dict does.  Money values use ℚ (the source compares and adds decimal
amounts; all literals are exact in ℚ).  Chat ids are integers, as in the
Telegram payloads the source reads.  Outbound `send_message` calls are
recorded as a list of (destination, text) events in emission order; the
keyboard/markup argument carries no decision-relevant data and is elided.
Wall-clock time is passed in explicitly: `now_epoch : ℕ` stands for
`int(time.time())` and `now : String` for
`datetime.now().strftime("%Y-%m-%d %H:%M:%S")`.
-/

namespace Bot

/-- Python dict lookup `d.get(k)` / `k in d` on an association list. -/
def dictGet {α β : Type} [DecidableEq α] : List (α × β) → α → Option β
  | [], _ => none
  | (k0, v0) :: rest, k => if k0 = k then some v0 else dictGet rest k

/-- Python dict assignment `d[k] = v`: replace the first binding of `k`
in place, else append at the end. -/
def dictSet {α β : Type} [DecidableEq α] : List (α × β) → α → β → List (α × β)
  | [], k, v => [(k, v)]
  | (k0, v0) :: rest, k, v =>
      if k0 = k then (k, v) :: rest else (k0, v0) :: dictSet rest k v

/-- Number of bindings of key `k` (a well-formed dict has at most one). -/
def countKey {α β : Type} [DecidableEq α] (d : List (α × β)) (k : α) : ℕ :=
  (d.filter fun p => p.1 = k).length

theorem dictGet_dictSet_self {α β : Type} [DecidableEq α]
    (d : List (α × β)) (k : α) (v : β) : dictGet (dictSet d k v) k = some v := by
  induction d with
  | nil => simp [dictSet, dictGet]
  | cons p rest ih =>
      by_cases h : p.1 = k
      · simp [dictSet, dictGet, h]
      · simp [dictSet, dictGet, h, ih]

theorem dictGet_dictSet_ne {α β : Type} [DecidableEq α]
    (d : List (α × β)) (k k' : α) (v : β) (h : k' ≠ k) :
    dictGet (dictSet d k v) k' = dictGet d k' := by
  have hk : ¬ (k = k') := fun e => h e.symm
  induction d with
  | nil => simp [dictSet, dictGet, hk]
  | cons p rest ih =>
      by_cases hp : p.1 = k
      · have hp' : ¬ (p.1 = k') := by rw [hp]; exact hk
        simp [dictSet, dictGet, hp, hp', hk]
      · simp [dictSet, dictGet, hp, ih]

theorem dictGet_dictSet_isSome {α β : Type} [DecidableEq α]
    (d : List (α × β)) (k k' : α) (v : β) (h : dictGet d k' ≠ none) :
    dictGet (dictSet d k v) k' ≠ none := by
  by_cases hk : k' = k
  · subst hk; simp [dictGet_dictSet_self]
  · rw [dictGet_dictSet_ne d k k' v hk]; exact h

theorem countKey_dictSet_self {α β : Type} [DecidableEq α]
    (d : List (α × β)) (k : α) (v : β) :
    countKey (dictSet d k v) k = if countKey d k = 0 then 1 else countKey d k := by
  induction d with
  | nil => simp [dictSet, countKey]
  | cons p rest ih =>
      by_cases hp : p.1 = k
      · simp [dictSet, countKey, hp, List.filter_cons]
      · have h1 : countKey (p :: rest) k = countKey rest k := by
          simp [countKey, List.filter_cons, hp]
        have h2 : countKey (dictSet (p :: rest) k v) k = countKey (dictSet rest k v) k := by
          simp [dictSet, hp, countKey, List.filter_cons]
        rw [h2, h1, ih]

/-- One catalog entry: `{'price': .., 'unit': ..}`. -/
structure ItemInfo where
  price : ℚ
  unit : String
deriving DecidableEq, Repr

/-- One cart entry: `{'price': .., 'unit': .., 'quantity': ..}`. -/
structure CartLine where
  price : ℚ
  unit : String
  quantity : ℕ
deriving DecidableEq, Repr

/-- A user cart: Python dict item-name → cart line. -/
abbrev Cart := List (String × CartLine)

/-- Embeds `grocery_categories`, the static catalog from the source. -/
def grocery_categories : List (String × List (String × ItemInfo)) :=
  [("🥦 Fresh Produce",
    [("🍎 Apples", ⟨3.99, "kg"⟩),
     ("🍌 Bananas", ⟨1.99, "kg"⟩),
     ("🥕 Carrots", ⟨2.49, "kg"⟩),
     ("🥬 Spinach", ⟨4.99, "bunch"⟩),
     ("🍅 Tomatoes", ⟨3.49, "kg"⟩)]),
   ("🥩 Meat & Poultry",
    [("🍗 Chicken Breast", ⟨12.99, "kg"⟩),
     ("🥩 Beef Steak", ⟨24.99, "kg"⟩),
     ("🐟 Salmon Fillet", ⟨18.99, "kg"⟩),
     ("🥓 Bacon", ⟨8.99, "pack"⟩)]),
   ("🥛 Dairy & Eggs",
    [("🥛 Milk", ⟨2.99, "liter"⟩),
     ("🧀 Cheese", ⟨6.99, "block"⟩),
     ("🍳 Eggs", ⟨4.99, "dozen"⟩),
     ("🧈 Butter", ⟨3.99, "block"⟩)])]

/-- An order record as stored in `order_tracking`. -/
structure Order where
  chat_id : ℤ
  customer_name : String
  phone : String
  address : String
  cart : Cart
  total : ℚ
  status : String
  created_at : String
  updated_at : String
deriving DecidableEq, Repr

/-- A user session dict: `step` plus the fields the flow accumulates. -/
structure Session where
  step : String
  customer_name : Option String := none
  phone : Option String := none
  address : Option String := none
  order_id : Option String := none
deriving DecidableEq, Repr

/-- The three global mutable maps of the source. -/
structure BotState where
  user_carts : List (ℤ × Cart)
  user_sessions : List (ℤ × Session)
  order_tracking : List (String × Order)
deriving DecidableEq, Repr

/-- Destination of a `send_message` call: a user chat id (int), or the raw
`ADMIN_CHAT_ID` string from the environment. -/
inductive Dest where
  | user (chat_id : ℤ)
  | raw (s : String)
deriving DecidableEq, Repr

/-- A recorded outbound message: destination and text. -/
abbrev Sent := List (Dest × String)

/-! ### Decimal rendering (Python `f"{n}"` / `str(n)` on integers)

`natReprCore fuel n` produces the big-endian decimal digit characters of
`n`; the fuel argument only bounds the recursion and does not affect the
result once `n < 10 ^ fuel`. -/

def natReprCore : ℕ → ℕ → List Char
  | 0, _ => []
  | fuel + 1, n =>
      if n < 10 then [Nat.digitChar n]
      else natReprCore fuel (n / 10) ++ [Nat.digitChar (n % 10)]

/-- Decimal representation of a natural number, as Python renders an int. -/
def natRepr (n : ℕ) : String := (natReprCore (n + 1) n).asString

/-- Decimal representation of an integer, as Python `str(chat_id)`. -/
def intRepr (i : ℤ) : String :=
  if i < 0 then "-" ++ natRepr i.natAbs else natRepr i.natAbs

/-- Reads a little-endian digit-character list back to a number. -/
def readDigitsRev : List Char → ℕ
  | [] => 0
  | c :: rest => (c.toNat - 48) + 10 * readDigitsRev rest

theorem readDigitsRev_natReprCore (fuel : ℕ) :
    ∀ n : ℕ, n < 10 ^ fuel → readDigitsRev (natReprCore fuel n).reverse = n := by
  induction fuel with
  | zero => intro n hn; simp at hn; simp [hn, natReprCore, readDigitsRev]
  | succ fuel ih =>
      intro n hn
      by_cases h10 : n < 10
      · have hdig : ∀ m : ℕ, m < 10 → (Nat.digitChar m).toNat - 48 = m := by decide
        simp [natReprCore, h10, readDigitsRev, hdig n h10]
      · have hdiv : n / 10 < 10 ^ fuel := by
          rw [Nat.div_lt_iff_lt_mul (by norm_num : (0:ℕ) < 10)]
          calc n < 10 ^ (fuel + 1) := hn
            _ = 10 ^ fuel * 10 := by ring
        have hmod : n % 10 < 10 := Nat.mod_lt _ (by norm_num)
        have hdig : ∀ m : ℕ, m < 10 → (Nat.digitChar m).toNat - 48 = m := by decide
        simp [natReprCore, h10, readDigitsRev, ih (n / 10) hdiv, hdig (n % 10) hmod]
        omega

theorem natRepr_injective : Function.Injective natRepr := by
  intro a b hab
  have hlt : ∀ n : ℕ, n < 10 ^ (n + 1) := by
    intro n
    calc n < 2 ^ n := Nat.lt_two_pow n
      _ ≤ 10 ^ n := Nat.pow_le_pow_left (by norm_num) n
      _ ≤ 10 ^ (n + 1) := Nat.pow_le_pow_right (by norm_num) (Nat.le_succ n)
  have hdata : (natReprCore (a + 1) a) = (natReprCore (b + 1) b) := by
    have := congrArg String.data hab
    simpa [natRepr, List.asString] using this
  have ha := readDigitsRev_natReprCore (a + 1) a (hlt a)
  have hb := readDigitsRev_natReprCore (b + 1) b (hlt b)
  rw [← ha, ← hb, hdata]

/-- Formats a money amount with two decimals, as Python `f"{x:.2f}"` does
for the exact nonnegative multiples of 0.01 arising here. -/
def fmt2 (q : ℚ) : String :=
  let cents : ℤ := ⌊q * 100⌋
  intRepr (cents / 100) ++ "." ++
    (if cents % 100 < 10 then "0" else "") ++ natRepr (cents % 100).natAbs

/-! ### Order id generation and totals -/

/-- Embeds `generate_order_id`, i.e. `f"ORD{int(time.time())}"`; `now_epoch` stands for
`int(time.time())`. -/
def generate_order_id (now_epoch : ℕ) : String := "ORD" ++ natRepr now_epoch

theorem generate_order_id_injective : Function.Injective generate_order_id := by
  intro a b hab
  have hdata : ("ORD".data ++ (natRepr a).data) = ("ORD".data ++ (natRepr b).data) := by
    have := congrArg String.data hab
    simpa [generate_order_id, String.data_append] using this
  have h2 : (natRepr a).data = (natRepr b).data := List.append_cancel_left hdata
  have h3 : natRepr a = natRepr b := by
    cases ha : natRepr a with
    | mk la => cases hb : natRepr b with
      | mk lb =>
          rw [ha, hb] at h2
          simp only [] at h2
          exact congrArg String.mk (by simpa using h2)
  exact natRepr_injective h3

/-- Embeds `sum(details['price'] * details['quantity'] for details in cart.values())`. -/
def cart_subtotal (cart : Cart) : ℚ :=
  (cart.map fun p => p.2.price * (p.2.quantity : ℚ)).sum

/-- Embeds `0 if subtotal >= 50 else 5`. -/
def delivery_fee_of (subtotal : ℚ) : ℚ := if 50 ≤ subtotal then 0 else 5

/-- Embeds `total = subtotal + delivery_fee`, as computed at lines 409-411. -/
def cart_total (cart : Cart) : ℚ :=
  cart_subtotal cart + delivery_fee_of (cart_subtotal cart)

/-! ### Order tracking: `save_order_tracking`, `update_order_status`,
customer notifications -/

/-- Embeds the safe cart copy loop at the top of `save_order_tracking`. -/
def cart_copy (cart : Cart) : Cart :=
  cart.map fun p =>
    (p.1, { price := p.2.price, unit := p.2.unit, quantity := p.2.quantity })

/-- Embeds `save_order_tracking` (lines 85-112).  The Python body fails only
by raising (caught, logged and turned into `return None`); `exc : Bool`
models whether the `try` body raised while building the cart copy, before
the ledger write.  Returns the ledger afterwards and `some order_id` on
success, mirroring `return order_id` / `return None`.  The `status`
parameter defaults to `"Pending"` at every call site, as in the source. -/
def save_order_tracking (exc : Bool) (ledger : List (String × Order))
    (now : String) (order_id : String) (chat_id : ℤ)
    (customer_name phone address : String) (cart : Cart) (total : ℚ)
    (status : String) : List (String × Order) × Option String :=
  if exc then (ledger, none)
  else
    (dictSet ledger order_id
      { chat_id := chat_id, customer_name := customer_name, phone := phone,
        address := address, cart := cart_copy cart, total := total,
        status := status, created_at := now, updated_at := now },
     some order_id)

/-- Embeds the `status_messages` dict of `notify_customer_order_update`
followed by `status_messages.get(new_status)` (lines 145-181): the three
templates keyed by status, `None` for any other status. -/
def status_message (order_id customer_name admin_note new_status : String) :
    Option String :=
  let note_line := if admin_note ≠ "" then s!"📝 Note from store: {admin_note}" else ""
  let reason_line :=
    if admin_note ≠ "" then s!"📝 Reason: {admin_note}"
    else "📝 Reason: Unable to fulfill order at this time"
  if new_status = "Shipped" then
    some s!"🚚 Order Shipped! \n\nHi {customer_name},\n\nYour order #{order_id} is on the way! \n\nYour groceries will arrive within 2 hours.\n\n{note_line}\n\nThank you for choosing FreshMart! 🛒"
  else if new_status = "Cancelled" then
    some s!"❌ Order Cancelled\n\nHi {customer_name},\n\nWe\'re sorry to inform you that your order #{order_id} has been cancelled.\n\n{reason_line}\n\nWe apologize for the inconvenience.\n\nFreshMart Team 🛒"
  else if new_status = "Delivered" then
    some s!"✅ Order Delivered! \n\nHi {customer_name},\n\nYour order #{order_id} has been successfully delivered!\n\nThank you for shopping with FreshMart! 🛒\n\nWe hope to serve you again soon! 🌟"
  else none

/-- Embeds `notify_customer_order_update` (lines 135-186): looks the order
up, renders the template for `new_status` and sends it to the order's
`chat_id`; sends nothing when the order or the template is missing. -/
def notify_customer_order_update (ledger : List (String × Order))
    (order_id new_status admin_note : String) : Sent :=
  match dictGet ledger order_id with
  | none => []
  | some order =>
      match status_message order_id order.customer_name admin_note new_status with
      | none => []
      | some msg => [(Dest.user order.chat_id, msg)]

/-- Embeds `update_order_status` (lines 114-133): on an unknown id, logs and
returns `False` with the ledger untouched; on a known id, overwrites
`status` and `updated_at` in place, notifies the customer and returns
`True`.  (The `try` body is total here, so the `except` arm of the source
is unreachable in the model.) -/
def update_order_status (now : String) (ledger : List (String × Order))
    (order_id new_status admin_note : String) :
    List (String × Order) × Bool × Sent :=
  match dictGet ledger order_id with
  | none => (ledger, false, [])
  | some order =>
      let order2 := { order with status := new_status, updated_at := now }
      let ledger2 := dictSet ledger order_id order2
      (ledger2, true, notify_customer_order_update ledger2 order_id new_status admin_note)

/-! ### Admin notification and callbacks -/

/-- Python string truthiness of the `ADMIN_CHAT_ID` environment value:
`None` and the empty string are falsy. -/
def truthyStr : Option String → Bool
  | none => false
  | some s => s != ""

/-- Python `s.startswith(pre)`. -/
def strStartsWith (s pre : String) : Bool := pre.data.isPrefixOf s.data

/-- Python `s[n:]`; slicing is by code points, i.e. `List.drop` on `data`. -/
def strDrop (s : String) (n : ℕ) : String := ⟨s.data.drop n⟩

/-- Embeds one line of the items loop of `create_admin_order_summary`. -/
def admin_item_line (item_name : String) (details : CartLine) : String :=
  let qty := natRepr details.quantity
  let u := details.unit
  s!"• {item_name} - {qty} {u}\n"

/-- Embeds `create_admin_order_summary` (lines 225-244). -/
def create_admin_order_summary (order_data : Order) : String :=
  let items_text := String.join (order_data.cart.map fun p => admin_item_line p.1 p.2)
  let name := order_data.customer_name
  let phone := order_data.phone
  let address := order_data.address
  let total_s := fmt2 order_data.total
  s!"👤 Customer: {name}\n📞 Phone: {phone}\n📍 Address: {address}\n\n📦 Order Items:\n{items_text}\n💰 Total: ${total_s}"

/-- Embeds `send_admin_order_notification` (lines 189-223): skipped when
`ADMIN_CHAT_ID` is unset (or empty, Python truthiness), else one message
with the new-order summary to the raw admin recipient. -/
def send_admin_order_notification (admin_chat_id : Option String)
    (order_id : String) (order_data : Order) : Sent :=
  match admin_chat_id with
  | none => []
  | some admin =>
      if admin = "" then []
      else
        let order_summary := create_admin_order_summary order_data
        let created_at := order_data.created_at
        let status := order_data.status
        [(Dest.raw admin,
          s!"🆕 NEW ORDER #{order_id}\n\n{order_summary}\n\n⏰ Order Time: {created_at}\n📊 Status: {status}\n\nChoose action:")]

/-- Embeds `handle_admin_callback` (lines 246-278).  The guard is the
source's `if not ADMIN_CHAT_ID or str(chat_id) != ADMIN_CHAT_ID`.  Returns
the sessions, the ledger and the messages sent. -/
def handle_admin_callback (admin_chat_id : Option String) (now : String)
    (sessions : List (ℤ × Session)) (ledger : List (String × Order))
    (chat_id : ℤ) (callback_data : String) :
    List (ℤ × Session) × List (String × Order) × Sent :=
  if truthyStr admin_chat_id = false ∨ admin_chat_id ≠ some (intRepr chat_id) then
    (sessions, ledger, [(Dest.user chat_id, "❌ Unauthorized access.")])
  else if strStartsWith callback_data "ship_" then
    let order_id := strDrop callback_data 5
    let r := update_order_status now ledger order_id "Shipped" "Your order is on the way!"
    if r.2.1 then
      (sessions, r.1, r.2.2 ++ [(Dest.user chat_id, s!"✅ Order #{order_id} marked as shipped! Customer notified.")])
    else
      (sessions, r.1, r.2.2 ++ [(Dest.user chat_id, s!"❌ Order #{order_id} not found.")])
  else if strStartsWith callback_data "cancel_" then
    let order_id := strDrop callback_data 7
    (dictSet sessions chat_id { step := "awaiting_cancel_reason", order_id := some order_id },
     ledger,
     [(Dest.user chat_id, s!"📝 Please provide reason for cancelling order #{order_id}:")])
  else if strStartsWith callback_data "deliver_" then
    let order_id := strDrop callback_data 8
    let r := update_order_status now ledger order_id "Delivered" ""
    if r.2.1 then
      (sessions, r.1, r.2.2 ++ [(Dest.user chat_id, s!"✅ Order #{order_id} marked as delivered! Customer notified.")])
    else
      (sessions, r.1, r.2.2 ++ [(Dest.user chat_id, s!"❌ Order #{order_id} not found.")])
  else (sessions, ledger, [])

/-! ### Shop handlers -/

/-- Embeds `show_categories` (lines 491-501): one message (the category
keyboard is display metadata). -/
def show_categories (chat_id : ℤ) : Sent :=
  [(Dest.user chat_id, "📋 Grocery Categories\n\nChoose a category to start shopping:")]

/-- Embeds the catalog scan at the top of `handle_add_to_cart`: first
category whose item dict contains `item_name`. -/
def find_item (item_name : String) : Option ItemInfo :=
  grocery_categories.findSome? fun cat => dictGet cat.2 item_name

/-- Embeds `handle_add_to_cart` (lines 523-548): unknown item replies
"Item not found." and touches nothing; a known item increments the existing
line's quantity or inserts a fresh line with quantity 1, then confirms and
re-shows the categories. -/
def handle_add_to_cart (carts : List (ℤ × Cart)) (chat_id : ℤ)
    (item_name : String) : List (ℤ × Cart) × Sent :=
  match find_item item_name with
  | none => (carts, [(Dest.user chat_id, "Item not found.")])
  | some item_details =>
      let carts1 := if dictGet carts chat_id = none then dictSet carts chat_id [] else carts
      let cart := (dictGet carts1 chat_id).getD []
      let cart2 :=
        match dictGet cart item_name with
        | some line => dictSet cart item_name { line with quantity := line.quantity + 1 }
        | none => dictSet cart item_name
            { price := item_details.price, unit := item_details.unit, quantity := 1 }
      (dictSet carts1 chat_id cart2,
       [(Dest.user chat_id, s!"✅ Added {item_name} to cart!")] ++ show_categories chat_id)

/-- Embeds `handle_checkout` (lines 578-584): with a missing or empty cart
it only re-prompts; otherwise it moves the session to `awaiting_name`. -/
def handle_checkout (carts : List (ℤ × Cart)) (sessions : List (ℤ × Session))
    (chat_id : ℤ) : List (ℤ × Session) × Sent :=
  if dictGet carts chat_id = none ∨ dictGet carts chat_id = some [] then
    (sessions, [(Dest.user chat_id, "Your cart is empty!")])
  else
    (dictSet sessions chat_id { step := "awaiting_name" },
     [(Dest.user chat_id, "🚚 Let\'s get your order delivered!\n\nPlease provide your full name:")])

/-- Embeds `handle_callback_query` (lines 586-593): routes `add_` payloads
to the cart, `back_categories` to the category view, and the three
operator-action prefixes to `handle_admin_callback`. -/
def handle_callback_query (admin_chat_id : Option String) (now : String)
    (st : BotState) (chat_id : ℤ) (callback_data : String) : BotState × Sent :=
  if strStartsWith callback_data "add_" then
    let item_name := strDrop callback_data 4
    let r := handle_add_to_cart st.user_carts chat_id item_name
    ({ st with user_carts := r.1 }, r.2)
  else if callback_data = "back_categories" then
    (st, show_categories chat_id)
  else if strStartsWith callback_data "ship_" ∨ strStartsWith callback_data "cancel_"
      ∨ strStartsWith callback_data "deliver_" then
    let r := handle_admin_callback admin_chat_id now st.user_sessions st.order_tracking
        chat_id callback_data
    ({ st with user_sessions := r.1, order_tracking := r.2.1 }, r.2.2)
  else (st, [])

/-! ### Order summary and completion -/

/-- Embeds one line of the items loop of `create_order_summary`. -/
def order_item_line (item_name : String) (details : CartLine) : String :=
  let qty := natRepr details.quantity
  let u := details.unit
  let line_total := fmt2 (details.price * (details.quantity : ℚ))
  s!"• {item_name} - {qty} {u} - ${line_total}\n"

/-- Embeds `create_order_summary` (lines 319-350): builds the customer-facing
summary text and returns it with the total. -/
def create_order_summary (customer_name phone address : String) (cart : Cart)
    (special_instructions : String) (now : String) : String × ℚ :=
  let subtotal := cart_subtotal cart
  let delivery_fee := delivery_fee_of subtotal
  let total := subtotal + delivery_fee
  let items_text := String.join (cart.map fun p => order_item_line p.1 p.2)
  let subtotal_s := fmt2 subtotal
  let fee_s := fmt2 delivery_fee
  let total_s := fmt2 total
  let instr_line :=
    if special_instructions ≠ "" then s!"Instructions: {special_instructions}" else ""
  (s!"🛒 ORDER SUMMARY\n\nCustomer: {customer_name}\nPhone: {phone}\nAddress: {address}\n\nItems:\n{items_text}\nSubtotal: ${subtotal_s}\nDelivery: ${fee_s}\nTOTAL: ${total_s}\n\n{instr_line}\n\nOrder Time: {now}",
   total)

/-- Embeds `complete_order` (lines 399-468).  `save_exc` selects the failure
arm of `save_order_tracking` (the source's only pre-ledger failure point);
`confirm_send_ok` is the Boolean result of the confirmation `send_message`,
whose failure triggers the one retry message of the source.  Order of
effects is the source's: tracking save first (early return on failure),
then sheet save (external sink, result unused), customer confirmation,
admin notification, and only then cart/session clearing.  Returns the new
state, the Boolean result and the messages sent. -/
def complete_order (now_epoch : ℕ) (now : String) (save_exc : Bool)
    (confirm_send_ok : Bool) (admin_chat_id : Option String) (st : BotState)
    (chat_id : ℤ) (customer_name phone address : String) (cart : Cart)
    (special_instructions : String) : BotState × Bool × Sent :=
  let order_id := generate_order_id now_epoch
  let subtotal := cart_subtotal cart
  let delivery_fee := delivery_fee_of subtotal
  let total := subtotal + delivery_fee
  match save_order_tracking save_exc st.order_tracking now order_id chat_id
      customer_name phone address cart total "Pending" with
  | (_, none) =>
      (st, false, [(Dest.user chat_id, "❌ Error saving your order. Please try again.")])
  | (ledger2, some _) =>
      let total_s := fmt2 total
      let confirmation := s!"✅ Order Confirmed! 🎉\n\nThank you {customer_name}!\n\nYour order has been received successfully.\n\n📦 Order ID: #{order_id}\n💰 Total Amount: ${total_s}\n💵 Payment: Cash on Delivery\n\nWe\'ll notify you when your order is shipped! 🚚\n\nFreshMart Grocery Delivery 🛒"
      let confirm_msgs := [(Dest.user chat_id, confirmation)] ++
        (if confirm_send_ok then []
         else [(Dest.user chat_id, "✅ Your order has been received! We\'ll contact you soon.")])
      let admin_msgs :=
        match dictGet ledger2 order_id with
        | some order_data => send_admin_order_notification admin_chat_id order_id order_data
        | none => []
      let carts2 := if dictGet st.user_carts chat_id ≠ none
        then dictSet st.user_carts chat_id [] else st.user_carts
      let sessions2 := if dictGet st.user_sessions chat_id ≠ none
        then dictSet st.user_sessions chat_id { step := "main_menu" } else st.user_sessions
      ({ user_carts := carts2, user_sessions := sessions2, order_tracking := ledger2 },
       true, confirm_msgs ++ admin_msgs)

/-! ### Further dictionary lemmas -/

theorem countKey_eq_zero_of_dictGet_none {α β : Type} [DecidableEq α]
    (d : List (α × β)) (k : α) (h : dictGet d k = none) : countKey d k = 0 := by
  induction d with
  | nil => simp [countKey]
  | cons p rest ih =>
      by_cases hp : p.1 = k
      · simp [dictGet, hp] at h
      · simp [dictGet, hp] at h
        have h2 : countKey (p :: rest) k = countKey rest k := by
          simp [countKey, List.filter_cons, hp]
        rw [h2]
        exact ih h

/-! ### Theorems for the claims -/

/-- C1: for every cart, the totals computed at checkout satisfy
subtotal = Σ unitPrice·quantity over the cart lines, deliveryFee = 0 when
subtotal ≥ 50 and 5 otherwise, total = subtotal + deliveryFee; the total
returned by `create_order_summary` and the total stored on the order that
`complete_order` creates both equal this value. -/
theorem order_totals_checkout (now_epoch : ℕ) (now : String)
    (confirm_send_ok : Bool) (admin_chat_id : Option String) (st : BotState)
    (chat_id : ℤ) (customer_name phone address special_instructions : String)
    (cart : Cart) :
    cart_subtotal cart = (cart.map fun l => l.2.price * (l.2.quantity : ℚ)).sum
    ∧ delivery_fee_of (cart_subtotal cart)
        = (if 50 ≤ cart_subtotal cart then 0 else 5)
    ∧ cart_total cart = cart_subtotal cart + delivery_fee_of (cart_subtotal cart)
    ∧ (create_order_summary customer_name phone address cart special_instructions now).2
        = cart_total cart
    ∧ ∃ o : Order,
        dictGet (complete_order now_epoch now false confirm_send_ok admin_chat_id st
            chat_id customer_name phone address cart special_instructions).1.order_tracking
          (generate_order_id now_epoch) = some o
        ∧ o.total = cart_total cart := by
  refine ⟨rfl, rfl, rfl, rfl, ?_⟩
  simp only [complete_order, save_order_tracking, Bool.false_eq_true, if_false]
  exact ⟨_, dictGet_dictSet_self _ _ _, rfl⟩

/-- C7: with an empty (or absent) cart, the checkout command changes no
session and only re-prompts that the cart is empty (no order is created:
`handle_checkout` never touches the ledger); with a non-empty cart it moves
the session to `awaiting_name`. -/
theorem checkout_refused_on_empty_cart (carts : List (ℤ × Cart))
    (sessions : List (ℤ × Session)) (chat_id : ℤ) :
    ((dictGet carts chat_id = none ∨ dictGet carts chat_id = some []) →
      handle_checkout carts sessions chat_id
        = (sessions, [(Dest.user chat_id, "Your cart is empty!")]))
    ∧ (∀ c : Cart, dictGet carts chat_id = some c → c ≠ [] →
      handle_checkout carts sessions chat_id
        = (dictSet sessions chat_id { step := "awaiting_name" },
           [(Dest.user chat_id, "🚚 Let\'s get your order delivered!\n\nPlease provide your full name:")])) := by
  constructor
  · intro h
    simp [handle_checkout, h]
  · intro c hc hne
    have hcond : ¬ (dictGet carts chat_id = none ∨ dictGet carts chat_id = some []) := by
      rw [hc]
      simp [hne]
    simp [handle_checkout, hcond]

/-- Witness for C7 at a concrete state: chat 7 has an empty-cart entry, so
checkout re-prompts; chat 8 holds one line of Milk, so checkout moves chat 8
to `awaiting_name`. -/
theorem checkout_refused_on_empty_cart_witness :
    (handle_checkout [(7, [])] [] 7 = ([], [(Dest.user 7, "Your cart is empty!")]))
    ∧ (handle_checkout [(8, [("🥛 Milk", ⟨2.99, "liter", 1⟩)])] [] 8
        = ([(8, { step := "awaiting_name" })],
           [(Dest.user 8, "🚚 Let\'s get your order delivered!\n\nPlease provide your full name:")])) := by
  constructor
  · exact (checkout_refused_on_empty_cart [(7, [])] [] 7).1 (Or.inr rfl)
  · exact (checkout_refused_on_empty_cart [(8, [("🥛 Milk", ⟨2.99, "liter", 1⟩)])] [] 8).2
      [("🥛 Milk", ⟨2.99, "liter", 1⟩)] rfl (by decide)

/-- C10 (implicit): an item name occurring in no catalog category leaves the
cart store untouched and replies "Item not found.", both when
`handle_add_to_cart` is called directly and when the name arrives through a
crafted `add_` callback payload. -/
theorem add_unknown_item_changes_nothing (admin_chat_id : Option String)
    (now : String) (st : BotState) (carts : List (ℤ × Cart)) (chat_id : ℤ)
    (item_name : String) (h : find_item item_name = none) :
    handle_add_to_cart carts chat_id item_name
      = (carts, [(Dest.user chat_id, "Item not found.")])
    ∧ handle_callback_query admin_chat_id now st chat_id ("add_" ++ item_name)
      = (st, [(Dest.user chat_id, "Item not found.")]) := by
  have hadd : ∀ (cs : List (ℤ × Cart)),
      handle_add_to_cart cs chat_id item_name
        = (cs, [(Dest.user chat_id, "Item not found.")]) := by
    intro cs
    simp [handle_add_to_cart, h]
  refine ⟨hadd carts, ?_⟩
  have hpre : strStartsWith ("add_" ++ item_name) "add_" = true := by
    simp [strStartsWith, String.data_append, List.isPrefixOf_iff_prefix]
  have hdrop : strDrop ("add_" ++ item_name) 4 = item_name := by
    have hd : ("add_" ++ item_name).data.drop 4 = item_name.data := by
      simp [String.data_append]
    show (⟨("add_" ++ item_name).data.drop 4⟩ : String) = item_name
    rw [hd]
  simp only [handle_callback_query, hpre, if_true, hdrop, hadd st.user_carts]

/-- Witness for C10: "🍕 Pizza" occurs in no catalog category, so adding it
(directly or via the callback payload "add_🍕 Pizza") changes nothing. -/
theorem add_unknown_item_changes_nothing_witness :
    find_item "🍕 Pizza" = none
    ∧ handle_add_to_cart [(7, [])] 7 "🍕 Pizza"
        = ([(7, [])], [(Dest.user 7, "Item not found.")])
    ∧ handle_callback_query none "T1" ⟨[(7, [])], [], []⟩ 7 ("add_" ++ "🍕 Pizza")
        = (⟨[(7, [])], [], []⟩, [(Dest.user 7, "Item not found.")]) := by
  have h : find_item "🍕 Pizza" = none := by decide
  have h2 := add_unknown_item_changes_nothing none "T1" ⟨[(7, [])], [], []⟩
    [(7, [])] 7 "🍕 Pizza" h
  exact ⟨h, h2.1, h2.2⟩

/-- C4: `update_order_status` on an orderId absent from the ledger returns
the distinct not-found result `False` with no message and the ledger
unchanged; on a present orderId and a target status among Shipped,
Cancelled and Delivered it overwrites that order's `status` and
`updated_at` and sends exactly one notification message, addressed to the
order's own chat id. -/
theorem update_order_status_spec (now : String)
    (ledger : List (String × Order)) (order_id new_status admin_note : String)
    (hstat : new_status = "Shipped" ∨ new_status = "Cancelled"
      ∨ new_status = "Delivered") :
    (dictGet ledger order_id = none →
      update_order_status now ledger order_id new_status admin_note
        = (ledger, false, []))
    ∧ (∀ o : Order, dictGet ledger order_id = some o →
        (update_order_status now ledger order_id new_status admin_note).2.1 = true
        ∧ dictGet (update_order_status now ledger order_id new_status admin_note).1
            order_id = some { o with status := new_status, updated_at := now }
        ∧ ∃ m : String,
            (update_order_status now ledger order_id new_status admin_note).2.2
              = [(Dest.user o.chat_id, m)]) := by
  constructor
  · intro h
    simp [update_order_status, h]
  · intro o ho
    have hmsg : ∃ m : String,
        status_message order_id o.customer_name admin_note new_status = some m := by
      rcases hstat with h | h | h <;> rw [h] <;> simp [status_message]
    obtain ⟨m, hm⟩ := hmsg
    refine ⟨?_, ?_, ⟨m, ?_⟩⟩
    · simp [update_order_status, ho]
    · simp [update_order_status, ho, dictGet_dictSet_self]
    · simp [update_order_status, ho, notify_customer_order_update,
        dictGet_dictSet_self, hm]

/-- A concrete pending order, used as a fixture by the witnesses. -/
def demo_order : Order :=
  { chat_id := 42, customer_name := "Ana", phone := "555", address := "X",
    cart := [("🍎 Apples", ⟨3.99, "kg", 2⟩)], total := 12.98,
    status := "Pending", created_at := "T1", updated_at := "T1" }

/-- Witness for C4 on a one-order ledger: the unknown id "ORD404" returns
`False` and changes nothing; shipping "ORD1" succeeds, rewrites status and
`updated_at`, and sends one message to the order's chat id 42. -/
theorem update_order_status_spec_witness :
    update_order_status "T2" [("ORD1", demo_order)] "ORD404" "Shipped" ""
      = ([("ORD1", demo_order)], false, [])
    ∧ (update_order_status "T2" [("ORD1", demo_order)] "ORD1" "Shipped" "").2.1 = true
    ∧ dictGet (update_order_status "T2" [("ORD1", demo_order)] "ORD1" "Shipped" "").1
        "ORD1" = some { demo_order with status := "Shipped", updated_at := "T2" }
    ∧ ∃ m : String,
        (update_order_status "T2" [("ORD1", demo_order)] "ORD1" "Shipped" "").2.2
          = [(Dest.user demo_order.chat_id, m)] := by
  have h404 := (update_order_status_spec "T2" [("ORD1", demo_order)] "ORD404"
    "Shipped" "" (Or.inl rfl)).1 rfl
  have h1 := (update_order_status_spec "T2" [("ORD1", demo_order)] "ORD1"
    "Shipped" "" (Or.inl rfl)).2 demo_order rfl
  exact ⟨h404, h1.1, h1.2.1, h1.2.2⟩

/-- C9: a status transition is the only mutation an order undergoes after
creation: on a ledger entry it rewrites exactly `status` and `updated_at`
(the record-update form fixes every other field), leaves every other
order untouched, and neither `update_order_status` nor
`save_order_tracking` ever removes an existing ledger key. -/
theorem status_update_is_only_mutation (now : String)
    (ledger : List (String × Order)) (order_id new_status admin_note : String)
    (o : Order) (h : dictGet ledger order_id = some o) :
    dictGet (update_order_status now ledger order_id new_status admin_note).1
      order_id = some { o with status := new_status, updated_at := now }
    ∧ (∀ k, k ≠ order_id →
        dictGet (update_order_status now ledger order_id new_status admin_note).1 k
          = dictGet ledger k)
    ∧ (∀ k, dictGet ledger k ≠ none →
        dictGet (update_order_status now ledger order_id new_status admin_note).1 k
          ≠ none)
    ∧ (∀ (exc : Bool) (now2 oid2 : String) (cid2 : ℤ) (nm ph ad : String)
        (ct : Cart) (tt : ℚ) (s2 k : String), dictGet ledger k ≠ none →
        dictGet (save_order_tracking exc ledger now2 oid2 cid2 nm ph ad ct tt s2).1 k
          ≠ none) := by
  refine ⟨?_, ?_, ?_, ?_⟩
  · simp [update_order_status, h, dictGet_dictSet_self]
  · intro k hk
    simp [update_order_status, h, dictGet_dictSet_ne _ _ _ _ hk]
  · intro k hk
    simp only [update_order_status, h]
    exact dictGet_dictSet_isSome _ _ _ _ hk
  · intro exc now2 oid2 cid2 nm ph ad ct tt s2 k hk
    by_cases he : exc
    · simpa [save_order_tracking, he] using hk
    · simp only [save_order_tracking, he, Bool.false_eq_true, if_false]
      exact dictGet_dictSet_isSome _ _ _ _ hk

/-- Witness for C9 on the one-order ledger: shipping "ORD1" preserves all
fields but `status`/`updated_at`, leaves the (vacuous) other keys alone,
and both operations keep "ORD1" present. -/
theorem status_update_is_only_mutation_witness :
    dictGet (update_order_status "T2" [("ORD1", demo_order)] "ORD1" "Cancelled"
        "out of stock").1 "ORD1"
      = some { demo_order with status := "Cancelled", updated_at := "T2" }
    ∧ dictGet (update_order_status "T2" [("ORD1", demo_order)] "ORD1" "Cancelled"
        "out of stock").1 "ORD9" = dictGet [("ORD1", demo_order)] "ORD9"
    ∧ dictGet (update_order_status "T2" [("ORD1", demo_order)] "ORD1" "Cancelled"
        "out of stock").1 "ORD1" ≠ none
    ∧ dictGet (save_order_tracking false [("ORD1", demo_order)] "T3" "ORD2" 7
        "Bo" "556" "Y" [] 5 "Pending").1 "ORD1" ≠ none := by
  have h := status_update_is_only_mutation "T2" [("ORD1", demo_order)] "ORD1"
    "Cancelled" "out of stock" demo_order rfl
  refine ⟨h.1, h.2.1 "ORD9" (by decide), h.2.2.1 "ORD1" (by decide),
    h.2.2.2 false "T3" "ORD2" 7 "Bo" "556" "Y" [] 5 "Pending" "ORD1" (by decide)⟩

/-- A string starting with prefix `pre` starts with the first character of
`pre`. -/
theorem strStartsWith_head (s pre : String) (c : Char) (rest : List Char)
    (hpre : pre.data = c :: rest) (h : strStartsWith s pre = true) :
    ∃ tl, s.data = c :: tl := by
  unfold strStartsWith at h
  rw [hpre] at h
  cases hd : s.data with
  | nil => rw [hd] at h; simp [List.isPrefixOf] at h
  | cons b bs =>
      rw [hd] at h
      simp [List.isPrefixOf] at h
      exact ⟨bs, by rw [h.1]⟩


/-- C5: any caller whose chat id differs (as Python compares it, by its
decimal string) from the configured operator identity who invokes a
ship_/cancel_/deliver_ callback gets exactly the denial message and the
whole bot state — order ledger included — is returned unchanged. -/
theorem unauthorized_operator_action_no_mutation (admin : String) (now : String)
    (st : BotState) (chat_id : ℤ) (callback_data : String)
    (hne : intRepr chat_id ≠ admin)
    (hcb : strStartsWith callback_data "ship_" = true
      ∨ strStartsWith callback_data "cancel_" = true
      ∨ strStartsWith callback_data "deliver_" = true) :
    handle_callback_query (some admin) now st chat_id callback_data
      = (st, [(Dest.user chat_id, "❌ Unauthorized access.")]) := by
  have hhead : ∃ c tl, callback_data.data = c :: tl
      ∧ (c = 's' ∨ c = 'c' ∨ c = 'd') := by
    rcases hcb with h | h | h
    · obtain ⟨tl, htl⟩ := strStartsWith_head _ _ 's' _ rfl h
      exact ⟨'s', tl, htl, Or.inl rfl⟩
    · obtain ⟨tl, htl⟩ := strStartsWith_head _ _ 'c' _ rfl h
      exact ⟨'c', tl, htl, Or.inr (Or.inl rfl)⟩
    · obtain ⟨tl, htl⟩ := strStartsWith_head _ _ 'd' _ rfl h
      exact ⟨'d', tl, htl, Or.inr (Or.inr rfl)⟩
  obtain ⟨c, tl, htl, hc⟩ := hhead
  have hadd : strStartsWith callback_data "add_" = false := by
    unfold strStartsWith
    rw [htl]
    rcases hc with h | h | h <;> subst h <;> simp [List.isPrefixOf]
  have hback : ¬ (callback_data = "back_categories") := by
    intro he
    rw [he] at htl
    rcases hc with h | h | h <;> subst h <;> simp at htl
  have hauth : truthyStr (some admin) = false
      ∨ (some admin : Option String) ≠ some (intRepr chat_id) := by
    right
    intro he
    exact hne ((Option.some_inj.mp he).symm)
  rw [handle_callback_query, if_neg (by simp [hadd]), if_neg hback,
    if_pos (by simpa using hcb), handle_admin_callback, if_pos hauth]

/-- Witness for C5: the operator identity is "99", the caller is chat 7
("7" ≠ "99"), the payload "ship_ORD1" targets the one existing order, yet
the ledger — and the rest of the state — stays exactly as it was and only
the denial is sent. -/
theorem unauthorized_operator_action_no_mutation_witness :
    handle_callback_query (some "99") "T2" ⟨[], [], [("ORD1", demo_order)]⟩ 7
        "ship_ORD1"
      = (⟨[], [], [("ORD1", demo_order)]⟩, [(Dest.user 7, "❌ Unauthorized access.")]) := by
  have hne : intRepr 7 ≠ "99" := by decide
  exact unauthorized_operator_action_no_mutation "99" "T2"
    ⟨[], [], [("ORD1", demo_order)]⟩ 7 "ship_ORD1" hne (Or.inl (by decide))

/-- C6: `complete_order` clears the cart and resets the session only after
the order record is inserted: when the tracking save fails it returns
`False` with the input state returned untouched (cart, session and ledger
unchanged, so the user may retry); when the save succeeds, the result holds
the new order in its ledger, the user's cart entry (when present) emptied
and their session (when present) reset to main_menu. -/
theorem cart_cleared_only_after_save (now_epoch : ℕ) (now : String)
    (confirm_send_ok : Bool) (admin_chat_id : Option String) (st : BotState)
    (chat_id : ℤ) (customer_name phone address special_instructions : String)
    (cart : Cart) :
    (complete_order now_epoch now true confirm_send_ok admin_chat_id st chat_id
        customer_name phone address cart special_instructions
      = (st, false,
         [(Dest.user chat_id, "❌ Error saving your order. Please try again.")]))
    ∧ ((complete_order now_epoch now false confirm_send_ok admin_chat_id st chat_id
          customer_name phone address cart special_instructions).2.1 = true
      ∧ dictGet (complete_order now_epoch now false confirm_send_ok admin_chat_id st
          chat_id customer_name phone address cart
          special_instructions).1.order_tracking (generate_order_id now_epoch) ≠ none
      ∧ (dictGet st.user_carts chat_id ≠ none →
          dictGet (complete_order now_epoch now false confirm_send_ok admin_chat_id st
            chat_id customer_name phone address cart
            special_instructions).1.user_carts chat_id = some [])
      ∧ (dictGet st.user_carts chat_id = none →
          (complete_order now_epoch now false confirm_send_ok admin_chat_id st
            chat_id customer_name phone address cart
            special_instructions).1.user_carts = st.user_carts)
      ∧ (dictGet st.user_sessions chat_id ≠ none →
          dictGet (complete_order now_epoch now false confirm_send_ok admin_chat_id st
            chat_id customer_name phone address cart
            special_instructions).1.user_sessions chat_id
            = some { step := "main_menu" })
      ∧ (dictGet st.user_sessions chat_id = none →
          (complete_order now_epoch now false confirm_send_ok admin_chat_id st
            chat_id customer_name phone address cart
            special_instructions).1.user_sessions = st.user_sessions)) := by
  refine ⟨by simp [complete_order, save_order_tracking], ?_, ?_, ?_, ?_, ?_, ?_⟩
  · simp only [complete_order, save_order_tracking, Bool.false_eq_true, if_false]
  · simp only [complete_order, save_order_tracking, Bool.false_eq_true, if_false]
    simp [dictGet_dictSet_self]
  · intro h
    simp only [complete_order, save_order_tracking, Bool.false_eq_true, if_false]
    simp [h, dictGet_dictSet_self]
  · intro h
    simp only [complete_order, save_order_tracking, Bool.false_eq_true, if_false]
    simp [h]
  · intro h
    simp only [complete_order, save_order_tracking, Bool.false_eq_true, if_false]
    simp [h, dictGet_dictSet_self]
  · intro h
    simp only [complete_order, save_order_tracking, Bool.false_eq_true, if_false]
    simp [h]

/-- Witness for C6 at a concrete state (chat 7 holds a one-line cart and an
instructions-step session): the failing save changes nothing; the
successful save creates "ORD100" and only then clears cart and session. -/
theorem cart_cleared_only_after_save_witness :
    (complete_order 100 "T1" true true none
        ⟨[(7, [("🥛 Milk", ⟨2.99, "liter", 1⟩)])],
         [(7, { step := "awaiting_instructions" })], []⟩ 7 "Ana" "555" "X"
        [("🥛 Milk", ⟨2.99, "liter", 1⟩)] ""
      = (⟨[(7, [("🥛 Milk", ⟨2.99, "liter", 1⟩)])],
          [(7, { step := "awaiting_instructions" })], []⟩, false,
         [(Dest.user 7, "❌ Error saving your order. Please try again.")]))
    ∧ dictGet (complete_order 100 "T1" false true none
        ⟨[(7, [("🥛 Milk", ⟨2.99, "liter", 1⟩)])],
         [(7, { step := "awaiting_instructions" })], []⟩ 7 "Ana" "555" "X"
        [("🥛 Milk", ⟨2.99, "liter", 1⟩)] "").1.order_tracking
        (generate_order_id 100) ≠ none
    ∧ dictGet (complete_order 100 "T1" false true none
        ⟨[(7, [("🥛 Milk", ⟨2.99, "liter", 1⟩)])],
         [(7, { step := "awaiting_instructions" })], []⟩ 7 "Ana" "555" "X"
        [("🥛 Milk", ⟨2.99, "liter", 1⟩)] "").1.user_carts 7 = some []
    ∧ dictGet (complete_order 100 "T1" false true none
        ⟨[(7, [("🥛 Milk", ⟨2.99, "liter", 1⟩)])],
         [(7, { step := "awaiting_instructions" })], []⟩ 7 "Ana" "555" "X"
        [("🥛 Milk", ⟨2.99, "liter", 1⟩)] "").1.user_sessions 7
        = some { step := "main_menu" } := by
  have h := cart_cleared_only_after_save 100 "T1" true none
    ⟨[(7, [("🥛 Milk", ⟨2.99, "liter", 1⟩)])],
     [(7, { step := "awaiting_instructions" })], []⟩ 7 "Ana" "555" "X" ""
    [("🥛 Milk", ⟨2.99, "liter", 1⟩)]
  exact ⟨h.1, h.2.2.1, h.2.2.2.1 (by decide), h.2.2.2.2.2.1 (by decide)⟩

/-- C8: adding a catalog item that is already a cart line increments that
line's quantity by one in place; adding the same item twice starting from a
cart without it yields exactly one line for the item, with quantity 2. -/
theorem add_same_item_increments_quantity (carts : List (ℤ × Cart))
    (chat_id : ℤ) (item_name : String) (info : ItemInfo)
    (hitem : find_item item_name = some info) :
    (∀ (cart : Cart) (line : CartLine), dictGet carts chat_id = some cart →
        dictGet cart item_name = some line →
        dictGet (handle_add_to_cart carts chat_id item_name).1 chat_id
          = some (dictSet cart item_name { line with quantity := line.quantity + 1 }))
    ∧ (dictGet ((dictGet carts chat_id).getD []) item_name = none →
        ∃ cart2 : Cart,
          dictGet (handle_add_to_cart (handle_add_to_cart carts chat_id item_name).1
              chat_id item_name).1 chat_id = some cart2
          ∧ dictGet cart2 item_name
              = some { price := info.price, unit := info.unit, quantity := 2 }
          ∧ countKey cart2 item_name = 1) := by
  constructor
  · intro cart line hcart hline
    have hne : ¬ (dictGet carts chat_id = none) := by simp [hcart]
    simp [handle_add_to_cart, hitem, hne, hcart, hline, dictGet_dictSet_self]
  · intro hno
    cases h0 : dictGet carts chat_id with
    | none =>
        have step1 : (handle_add_to_cart carts chat_id item_name).1
            = dictSet (dictSet carts chat_id []) chat_id
                [(item_name, ⟨info.price, info.unit, 1⟩)] := by
          simp [handle_add_to_cart, hitem, h0, dictGet_dictSet_self, dictGet, dictSet]
        rw [step1]
        refine ⟨[(item_name, ⟨info.price, info.unit, 2⟩)], ?_, by simp [dictGet], by
          simp [countKey, List.filter_cons]⟩
        simp [handle_add_to_cart, hitem, dictGet, dictSet, dictGet_dictSet_self]
    | some cart0 =>
        have hno0 : dictGet cart0 item_name = none := by
          simpa [h0] using hno
        have hne1 : ¬ (dictGet carts chat_id = none) := by simp [h0]
        have step1 : (handle_add_to_cart carts chat_id item_name).1
            = dictSet carts chat_id
                (dictSet cart0 item_name ⟨info.price, info.unit, 1⟩) := by
          simp [handle_add_to_cart, hitem, hne1, h0, hno0]
        rw [step1]
        refine ⟨dictSet (dictSet cart0 item_name ⟨info.price, info.unit, 1⟩)
          item_name ⟨info.price, info.unit, 2⟩, ?_, dictGet_dictSet_self _ _ _, ?_⟩
        · simp [handle_add_to_cart, hitem, dictGet_dictSet_self]
        · have hc0 : countKey cart0 item_name = 0 :=
            countKey_eq_zero_of_dictGet_none _ _ hno0
          have hc1 : countKey (dictSet cart0 item_name
              (⟨info.price, info.unit, 1⟩ : CartLine)) item_name = 1 := by
            rw [countKey_dictSet_self, hc0]; simp
          rw [countKey_dictSet_self, hc1]; simp

/-- Witness for C8: from a fresh state, adding Apples once to a cart that
already holds one Apples line gives quantity 2; adding Apples twice from an
absent cart yields exactly one Apples line of quantity 2. -/
theorem add_same_item_increments_quantity_witness :
    dictGet (handle_add_to_cart [(7, [("🍎 Apples", ⟨3.99, "kg", 1⟩)])] 7
        "🍎 Apples").1 7
      = some (dictSet [("🍎 Apples", (⟨3.99, "kg", 1⟩ : CartLine))] "🍎 Apples"
          ⟨3.99, "kg", 2⟩)
    ∧ ∃ cart2 : Cart,
        dictGet (handle_add_to_cart (handle_add_to_cart [] 7 "🍎 Apples").1 7
            "🍎 Apples").1 7 = some cart2
        ∧ dictGet cart2 "🍎 Apples" = some ⟨3.99, "kg", 2⟩
        ∧ countKey cart2 "🍎 Apples" = 1 := by
  have h1 := add_same_item_increments_quantity
    [(7, [("🍎 Apples", ⟨3.99, "kg", 1⟩)])] 7 "🍎 Apples" ⟨3.99, "kg"⟩ rfl
  have h2 := add_same_item_increments_quantity [] 7 "🍎 Apples" ⟨3.99, "kg"⟩ rfl
  exact ⟨h1.1 [("🍎 Apples", ⟨3.99, "kg", 1⟩)] ⟨3.99, "kg", 1⟩ rfl rfl,
    h2.2 rfl⟩

/-- C2 counterexample: `complete_order` re-validates nothing — called with
an empty cart (chat 7, epoch 100, empty initial state) it reports success
and the order ledger does not stay unchanged: an order is created. -/
theorem complete_order_empty_cart_creates_order :
    (complete_order 100 "T1" false true none ⟨[], [], []⟩ 7 "Ana" "555" "X" []
        "").2.1 = true
    ∧ (complete_order 100 "T1" false true none ⟨[], [], []⟩ 7 "Ana" "555" "X" []
        "").1.order_tracking ≠ ([] : List (String × Order)) := by
  constructor
  · rfl
  · intro h
    simp [complete_order, save_order_tracking, dictSet] at h

/-- C2 amended: the empty-cart condition is validated only by the caller's
checkout guard, not inside order creation: `handle_checkout` refuses an
empty or absent cart, while `complete_order` invoked with an empty cart
(and the save step not raising) still creates a ledger entry — an order
with an empty cart snapshot and total 5 (subtotal 0 plus the 5.00 fee) —
and reports success. -/
theorem empty_cart_guard_only_at_checkout (now_epoch : ℕ) (now : String)
    (confirm_send_ok : Bool) (admin_chat_id : Option String) (st : BotState)
    (chat_id : ℤ) (customer_name phone address special_instructions : String)
    (carts : List (ℤ × Cart)) (sessions : List (ℤ × Session))
    (hempty : dictGet carts chat_id = none ∨ dictGet carts chat_id = some []) :
    handle_checkout carts sessions chat_id
      = (sessions, [(Dest.user chat_id, "Your cart is empty!")])
    ∧ (complete_order now_epoch now false confirm_send_ok admin_chat_id st chat_id
        customer_name phone address [] special_instructions).2.1 = true
    ∧ ∃ o : Order,
        dictGet (complete_order now_epoch now false confirm_send_ok admin_chat_id st
            chat_id customer_name phone address []
            special_instructions).1.order_tracking (generate_order_id now_epoch)
          = some o
        ∧ o.cart = [] ∧ o.total = 5 := by
  refine ⟨by simp [handle_checkout, hempty], rfl, ?_⟩
  simp only [complete_order, save_order_tracking, Bool.false_eq_true, if_false]
  refine ⟨_, dictGet_dictSet_self _ _ _, rfl, ?_⟩
  show cart_subtotal [] + delivery_fee_of (cart_subtotal []) = 5
  norm_num [cart_subtotal, delivery_fee_of]

/-- Witness for the amended C2 at chat 7 with no cart entry at all and a
fresh state: checkout refuses, yet `complete_order` succeeds and records an
order of total 5 with an empty cart snapshot. -/
theorem empty_cart_guard_only_at_checkout_witness :
    handle_checkout [] [] 7 = ([], [(Dest.user 7, "Your cart is empty!")])
    ∧ (complete_order 100 "T1" false true none ⟨[], [], []⟩ 7 "Ana" "555" "X" []
        "").2.1 = true
    ∧ ∃ o : Order,
        dictGet (complete_order 100 "T1" false true none ⟨[], [], []⟩ 7 "Ana"
            "555" "X" [] "").1.order_tracking (generate_order_id 100) = some o
        ∧ o.cart = [] ∧ o.total = 5 :=
  empty_cart_guard_only_at_checkout 100 "T1" true none ⟨[], [], []⟩ 7 "Ana" "555"
    "X" "" [] [] (Or.inl rfl)

/-- C3 counterexample: two orders completed within the same epoch second
(both at epoch 100) receive the same orderId: Ana's order is created first,
then Bob's creation succeeds with an identical id and overwrites Ana's
ledger entry — afterwards the ledger holds a single order, Bob's. -/
theorem same_second_order_ids_collide :
    (dictGet (complete_order 100 "T1" false true none ⟨[], [], []⟩ 1 "Ana" "p1"
        "a1" [] "").1.order_tracking (generate_order_id 100)).map
        Order.customer_name = some "Ana"
    ∧ (complete_order 100 "T2" false true none
        (complete_order 100 "T1" false true none ⟨[], [], []⟩ 1 "Ana" "p1" "a1" []
          "").1 2 "Bob" "p2" "a2" [] "").2.1 = true
    ∧ (complete_order 100 "T2" false true none
        (complete_order 100 "T1" false true none ⟨[], [], []⟩ 1 "Ana" "p1" "a1" []
          "").1 2 "Bob" "p2" "a2" [] "").1.order_tracking.length = 1
    ∧ (dictGet (complete_order 100 "T2" false true none
        (complete_order 100 "T1" false true none ⟨[], [], []⟩ 1 "Ana" "p1" "a1" []
          "").1 2 "Bob" "p2" "a2" [] "").1.order_tracking
        (generate_order_id 100)).map Order.customer_name = some "Bob" := by
  refine ⟨rfl, rfl, rfl, rfl⟩

/-- C3 amended: orderIds are the creation epoch second rendered in decimal
after "ORD", so orders created at distinct epoch seconds carry distinct
orderIds, and inserting under an id different from a ledger key leaves that
key's entry unchanged (creation overwrites — and ids repeat — exactly when
two creations share a second, as the counterexample shows). -/
theorem order_ids_distinct_across_seconds (t1 t2 : ℕ) (h : t1 ≠ t2)
    (ledger : List (String × Order)) (now : String) (chat_id : ℤ)
    (nm ph ad : String) (cart : Cart) (total : ℚ) :
    generate_order_id t1 ≠ generate_order_id t2
    ∧ (∀ k, k ≠ generate_order_id t2 →
        dictGet (save_order_tracking false ledger now (generate_order_id t2)
          chat_id nm ph ad cart total "Pending").1 k = dictGet ledger k)
    ∧ (save_order_tracking false ledger now (generate_order_id t2) chat_id nm ph
        ad cart total "Pending").2 = some (generate_order_id t2) := by
  refine ⟨fun he => h (generate_order_id_injective he), ?_, rfl⟩
  intro k hk
  simp only [save_order_tracking, Bool.false_eq_true, if_false]
  exact dictGet_dictSet_ne _ _ _ _ hk

/-- Witness for the amended C3: epochs 100 and 101 give different ids, and
saving the epoch-101 order over a ledger holding "ORD100" leaves the
"ORD100" entry untouched. -/
theorem order_ids_distinct_across_seconds_witness :
    generate_order_id 100 ≠ generate_order_id 101
    ∧ dictGet (save_order_tracking false [("ORD100", demo_order)] "T2"
        (generate_order_id 101) 7 "Bo" "556" "Y" [] 5 "Pending").1 "ORD100"
      = some demo_order := by
  have h := order_ids_distinct_across_seconds 100 101 (by decide)
    [("ORD100", demo_order)] "T2" 7 "Bo" "556" "Y" [] 5
  refine ⟨h.1, ?_⟩
  rw [h.2.1 "ORD100" (by decide)]
  rfl

end Bot
